import Mathlib

/-!
Shallow embedding of `GAME3111_LiIngram_A1/Source/GAME3111_LiIngram_A1.cpp`
(a DirectX 12 teaching-framework demo, class `TexColumnsApp`), together with
theorems settling the specification claims about it.

Modelling conventions:
* `float` arithmetic is embedded as exact `ℚ` arithmetic (the operations the
  claims concern — addition, multiplication by literal constants, clamping —
  are stated by the spec in exact decimal terms).
* 4x4 matrices (`XMFLOAT4X4` / `XMMATRIX`) are `Matrix (Fin 4) (Fin 4) ℚ`;
  `XMMatrixTranspose` is `Matrix.transpose`.
* Machine integers are `ℕ` / `ℤ`.
* GPU-side command recording is embedded as the list of commands recorded.
-/

namespace TexColumns

/-! ## Framework constants and helpers

`MathHelper.h` and DirectXMath are not part of the single source file; the
helpers used by the camera code are modelled here. -/

/-- Modelled from the spec: `MathHelper::Pi`, the framework's `float` value of
π (`3.1415926535f`), used by the camera clamp bound `MathHelper::Pi - 0.1f`
and by the angle-to-radian conversion. Embedded as the exact decimal. -/
def MathHelperPi : ℚ := 3.1415926535

/-- Modelled from the spec: `MathHelper::Clamp(x, low, high)` returns `low`
when `x < low`, `high` when `x > high`, and `x` otherwise. -/
def clamp (x low high : ℚ) : ℚ := if x < low then low else if x > high then high else x

/-- Modelled from the spec: `XMConvertToRadians(deg) = deg * (π / 180)`,
the DirectXMath degree-to-radian conversion used by `OnMouseMove`. -/
def toRadians (deg : ℚ) : ℚ := deg * (MathHelperPi / 180)

/-! ## Camera state and mouse handling

`TexColumnsApp` camera members (source lines 1359–1363):
`mTheta = 1.5f*XM_PI`, `mPhi = 0.2f*XM_PI`, `mRadius = 100.0f`, and
`mLastMousePos`. -/

/-- The camera-relevant mutable state of `TexColumnsApp`:
spherical coordinates `mTheta`, `mPhi`, `mRadius` and `mLastMousePos`. -/
structure CameraState where
  mTheta : ℚ
  mPhi : ℚ
  mRadius : ℚ
  lastX : ℤ
  lastY : ℤ
  deriving Repr, DecidableEq

/-- Initial camera state from the member initializers:
`mTheta = 1.5f * XM_PI`, `mPhi = 0.2f * XM_PI`, `mRadius = 100.0f`
(`mLastMousePos` is set by `OnMouseDown` before any drag; the model starts
it at the origin). -/
def initCameraState : CameraState :=
  { mTheta := 3 / 2 * MathHelperPi
    mPhi := 1 / 5 * MathHelperPi
    mRadius := 100
    lastX := 0
    lastY := 0 }

/-- Source `TexColumnsApp::OnMouseDown(btnState, x, y)`: records the mouse position. -/
def onMouseDown (s : CameraState) (x y : ℤ) : CameraState :=
  { s with lastX := x, lastY := y }

/-- A mouse-move event: which buttons are held (`btnState & MK_LBUTTON`,
`btnState & MK_RBUTTON`) and the new cursor position. -/
structure MouseMove where
  lbutton : Bool
  rbutton : Bool
  x : ℤ
  y : ℤ
  deriving Repr, DecidableEq

/-- Source `TexColumnsApp::OnMouseMove` (lines 1543–1571):
* left button: `mTheta += XMConvertToRadians(0.25f * (x - last.x))`,
  `mPhi += XMConvertToRadians(0.25f * (y - last.y))`, then
  `mPhi = MathHelper::Clamp(mPhi, 0.1f, MathHelper::Pi - 0.1f)`;
* else right button: `mRadius += 0.05f*(x - last.x) - 0.05f*(y - last.y)`,
  then `mRadius = MathHelper::Clamp(mRadius, 5.0f, 150.0f)`;
* always: `mLastMousePos = (x, y)`. -/
def onMouseMove (s : CameraState) (ev : MouseMove) : CameraState :=
  if ev.lbutton then
    let dx := toRadians (1 / 4 * ((ev.x : ℚ) - (s.lastX : ℚ)))
    let dy := toRadians (1 / 4 * ((ev.y : ℚ) - (s.lastY : ℚ)))
    { s with
      mTheta := s.mTheta + dx
      mPhi := clamp (s.mPhi + dy) (1 / 10) (MathHelperPi - 1 / 10)
      lastX := ev.x
      lastY := ev.y }
  else if ev.rbutton then
    let dx := 1 / 20 * ((ev.x : ℚ) - (s.lastX : ℚ))
    let dy := 1 / 20 * ((ev.y : ℚ) - (s.lastY : ℚ))
    { s with
      mRadius := clamp (s.mRadius + (dx - dy)) 5 150
      lastX := ev.x
      lastY := ev.y }
  else
    { s with lastX := ev.x, lastY := ev.y }

/-- Folding a sequence of mouse-move events over a camera state. -/
def runMouseMoves (s : CameraState) (evs : List MouseMove) : CameraState :=
  evs.foldl onMouseMove s

/-! ## Frame-resource ring index -/

/-- Constant `gNumFrameResources` (source line 1250): the ring size. -/
def gNumFrameResources : ℕ := 3

/-- The ring advance in `TexColumnsApp::Update` (source line 1449):
`mCurrFrameResourceIndex = (mCurrFrameResourceIndex + 1) % gNumFrameResources`. -/
def advanceIndex (i : ℕ) : ℕ := (i + 1) % gNumFrameResources

/-! ## Clamp lemmas -/

theorem clamp_mem (x low high : ℚ) (h : low ≤ high) :
    low ≤ clamp x low high ∧ clamp x low high ≤ high := by
  unfold clamp
  split
  · exact ⟨le_refl _, h⟩
  · split
    · exact ⟨h, le_refl _⟩
    · constructor <;> linarith [not_lt.mp ‹¬x < low›, not_lt.mp ‹¬x > high›]

theorem clamp_of_mem (x low high : ℚ) (h1 : low ≤ x) (h2 : x ≤ high) :
    clamp x low high = x := by
  unfold clamp
  rw [if_neg (by linarith), if_neg (by simp; linarith)]

/-- The camera bounds invariant: `mPhi` in the closed interval
`[0.1, MathHelper::Pi - 0.1]` and `mRadius` in `[5, 150]`. -/
def CameraInv (s : CameraState) : Prop :=
  1 / 10 ≤ s.mPhi ∧ s.mPhi ≤ MathHelperPi - 1 / 10 ∧ 5 ≤ s.mRadius ∧ s.mRadius ≤ 150

theorem cameraInv_init : CameraInv initCameraState := by
  refine ⟨?_, ?_, ?_, ?_⟩ <;> norm_num [initCameraState, MathHelperPi]

theorem cameraInv_step (s : CameraState) (ev : MouseMove) (h : CameraInv s) :
    CameraInv (onMouseMove s ev) := by
  obtain ⟨h1, h2, h3, h4⟩ := h
  unfold onMouseMove
  have hlh : (1 : ℚ) / 10 ≤ MathHelperPi - 1 / 10 := by norm_num [MathHelperPi]
  split
  · exact ⟨(clamp_mem _ _ _ hlh).1, (clamp_mem _ _ _ hlh).2, h3, h4⟩
  · split
    · exact ⟨h1, h2, (clamp_mem _ _ _ (by norm_num)).1, (clamp_mem _ _ _ (by norm_num)).2⟩
    · exact ⟨h1, h2, h3, h4⟩

theorem cameraInv_run (s : CameraState) (evs : List MouseMove) (h : CameraInv s) :
    CameraInv (runMouseMoves s evs) := by
  induction evs generalizing s with
  | nil => exact h
  | cons ev evs ih => exact ih _ (cameraInv_step s ev h)

/-- C4 (counterexample): the claim asserts `mPhi` stays within the OPEN
interval with bounds `0.1` and `Pi - 0.1`. A single left-button drag far
upward from the initial state clamps `mPhi` to exactly `0.1`, which is not in
the open interval. -/
theorem c4_phi_open_interval_counterexample :
    ¬ (1 / 10 < (runMouseMoves initCameraState [⟨true, false, 0, -10000⟩]).mPhi ∧
       (runMouseMoves initCameraState [⟨true, false, 0, -10000⟩]).mPhi
         < MathHelperPi - 1 / 10) := by
  have h : (runMouseMoves initCameraState [⟨true, false, 0, -10000⟩]).mPhi = 1 / 10 := by
    simp only [runMouseMoves, List.foldl, onMouseMove, initCameraState, toRadians,
      MathHelperPi, clamp]
    norm_num
  rw [h]
  norm_num

/-- C4 (amended): from the initial state (`mPhi = 0.2*Pi`, `mRadius = 100`),
after any sequence of mouse-move events of any magnitude and any button
combination, `mPhi` lies in the CLOSED interval `[0.1, MathHelper::Pi - 0.1]`
and `mRadius` lies in the closed interval `[5, 150]`. -/
theorem c4_camera_bounds_invariant (evs : List MouseMove) :
    1 / 10 ≤ (runMouseMoves initCameraState evs).mPhi ∧
    (runMouseMoves initCameraState evs).mPhi ≤ MathHelperPi - 1 / 10 ∧
    5 ≤ (runMouseMoves initCameraState evs).mRadius ∧
    (runMouseMoves initCameraState evs).mRadius ≤ 150 :=
  cameraInv_run initCameraState evs cameraInv_init

/-- C5: from the initial state (`theta = 1.5*Pi`, `phi = 0.2*Pi`,
`radius = 100`, last mouse position the origin): a left-button move to
`(40, 0)` (dx = 40 px, dy = 0 px) increases `mTheta` by exactly 10 degrees in
radians (`10 * Pi/180`, i.e. 0.25°/px) and leaves `mPhi` and `mRadius`
unchanged; a right-button move to `(0, -20)` (dx = 0, dy = -20 px) increases
`mRadius` by exactly `1.0` (`0.05` units per pixel, `radius += 0.05*dx -
0.05*dy`, result within the clamp range `[5, 150]`), leaving `mTheta` and
`mPhi` unchanged. -/
theorem c5_example_drags :
    (onMouseMove initCameraState ⟨true, false, 40, 0⟩).mTheta
        = initCameraState.mTheta + 10 * (MathHelperPi / 180) ∧
    (onMouseMove initCameraState ⟨true, false, 40, 0⟩).mPhi = initCameraState.mPhi ∧
    (onMouseMove initCameraState ⟨true, false, 40, 0⟩).mRadius = initCameraState.mRadius ∧
    (onMouseMove initCameraState ⟨false, true, 0, -20⟩).mRadius
        = initCameraState.mRadius + 1 ∧
    5 ≤ initCameraState.mRadius + 1 ∧ initCameraState.mRadius + 1 ≤ 150 ∧
    (onMouseMove initCameraState ⟨false, true, 0, -20⟩).mTheta = initCameraState.mTheta ∧
    (onMouseMove initCameraState ⟨false, true, 0, -20⟩).mPhi = initCameraState.mPhi := by
  refine ⟨?_, ?_, ?_, ?_, ?_, ?_, ?_, ?_⟩ <;>
    simp only [onMouseMove, initCameraState, toRadians, MathHelperPi, clamp] <;>
    norm_num

/-- C10: with the left button held, `OnMouseMove` sets the new `mTheta` to
exactly the old `mTheta` plus `0.25` degrees per pixel of horizontal delta
converted to radians — no clamp, wrap, or normalization, for any delta sign
or magnitude (and regardless of the right button's state). -/
theorem c10_theta_unclamped (s : CameraState) (rb : Bool) (x y : ℤ) :
    (onMouseMove s ⟨true, rb, x, y⟩).mTheta
      = s.mTheta + 1 / 4 * ((x : ℚ) - (s.lastX : ℚ)) * (MathHelperPi / 180) := by
  simp [onMouseMove, toRadians]

/-- C3: the frame-resource ring index advance
`mCurrFrameResourceIndex = (mCurrFrameResourceIndex + 1) % gNumFrameResources`
always yields an index in `[0, 3)`, and applied `N = 3` times to any valid
index returns the starting index (cyclic, period `N`). -/
theorem c3_ring_index_cyclic (i : ℕ) (h : i < gNumFrameResources) :
    advanceIndex i < gNumFrameResources ∧
    advanceIndex (advanceIndex (advanceIndex i)) = i := by
  unfold advanceIndex gNumFrameResources at *
  refine ⟨Nat.mod_lt _ (by norm_num), ?_⟩
  interval_cases i <;> rfl

/-- Witness for C3 at the initial index `mCurrFrameResourceIndex = 0`. -/
theorem c3_ring_index_cyclic_witness :
    0 < gNumFrameResources ∧
    (advanceIndex 0 < gNumFrameResources ∧
     advanceIndex (advanceIndex (advanceIndex 0)) = 0) :=
  ⟨by decide, c3_ring_index_cyclic 0 (by decide)⟩

/-! ## Frame-resource fence protocol

`TexColumnsApp::Update` (source lines 1448–1460) advances the ring index and
then waits on the fence of the newly current frame resource; the tail of
`TexColumnsApp::Draw` (source lines 1519–1527) records
`mCurrFrameResource->Fence = ++mCurrentFence` and signals the queue.
`FrameResource::Fence` starts at `0` (modelled from the spec: "skipped on
first use, when the marker is unset" — `FrameResource.h` is not in the
single source file). -/

/-- The fence-related state: the ring index `mCurrFrameResourceIndex`, the
CPU-side counter `mCurrentFence`, each slot's recorded `FrameResource::Fence`
(a total function; only slots `0..2` are used), and the GPU's
`mFence->GetCompletedValue()`. -/
structure FenceState where
  idx : ℕ
  currentFence : ℕ
  slotFence : ℕ → ℕ
  gpuCompleted : ℕ

/-- Initial fence state: index `0`, `mCurrentFence = 0`, every
`FrameResource::Fence = 0`, completed value `0`. -/
def initFenceState : FenceState :=
  { idx := 0, currentFence := 0, slotFence := fun _ => 0, gpuCompleted := 0 }

/-- The acquire step of `TexColumnsApp::Update`: advance the ring index, let
the GPU make `g` units of asynchronous progress, then
`if (Fence != 0 && GetCompletedValue() < Fence) { wait until completed ≥ Fence }`
— the blocking wait returns when the completed value reaches the recorded
fence. -/
def updateStep (s : FenceState) (g : ℕ) : FenceState :=
  if s.slotFence (advanceIndex s.idx) ≠ 0 ∧
      s.gpuCompleted + g < s.slotFence (advanceIndex s.idx) then
    { s with idx := advanceIndex s.idx, gpuCompleted := s.slotFence (advanceIndex s.idx) }
  else
    { s with idx := advanceIndex s.idx, gpuCompleted := s.gpuCompleted + g }

/-- The submission tail of `TexColumnsApp::Draw`:
`mCurrFrameResource->Fence = ++mCurrentFence;`
`mCommandQueue->Signal(mFence.Get(), mCurrentFence);`. -/
def drawSubmit (s : FenceState) : FenceState :=
  { s with
    currentFence := s.currentFence + 1
    slotFence := Function.update s.slotFence s.idx (s.currentFence + 1) }

/-- One frame of the fence protocol: `Update`'s acquire followed by `Draw`'s
submission, with `g` the GPU's asynchronous progress during the frame. -/
def frameStep (s : FenceState) (g : ℕ) : FenceState := drawSubmit (updateStep s g)

/-- A run of consecutive frames, one GPU-progress amount per frame. -/
def runFrames (s : FenceState) (gs : List ℕ) : FenceState := gs.foldl frameStep s

theorem updateStep_ge_fence (s : FenceState) (g : ℕ) :
    s.slotFence (advanceIndex s.idx) ≤ (updateStep s g).gpuCompleted := by
  unfold updateStep
  split
  · exact le_refl _
  · rename_i h
    rcases not_and_or.mp h with h0 | hge
    · simp [not_not.mp h0]
    · exact not_lt.mp hge

theorem updateStep_skip (s : FenceState) (g : ℕ)
    (h0 : s.slotFence (advanceIndex s.idx) = 0) :
    (updateStep s g).gpuCompleted = s.gpuCompleted + g := by
  unfold updateStep
  rw [if_neg (by simp [h0])]

theorem updateStep_monotone (s : FenceState) (g : ℕ) :
    s.gpuCompleted ≤ (updateStep s g).gpuCompleted := by
  unfold updateStep
  split
  · rename_i h
    exact le_trans (Nat.le_add_right _ g) (le_of_lt h.2)
  · exact Nat.le_add_right _ g

theorem updateStep_currentFence (s : FenceState) (g : ℕ) :
    (updateStep s g).currentFence = s.currentFence := by
  unfold updateStep
  split <;> rfl

theorem updateStep_idx (s : FenceState) (g : ℕ) :
    (updateStep s g).idx = advanceIndex s.idx := by
  unfold updateStep
  split <;> rfl

theorem frameStep_currentFence (s : FenceState) (g : ℕ) :
    (frameStep s g).currentFence = s.currentFence + 1 := by
  show (drawSubmit (updateStep s g)).currentFence = _
  unfold drawSubmit
  simp [updateStep_currentFence]

theorem runFrames_currentFence (s : FenceState) (gs : List ℕ) :
    (runFrames s gs).currentFence = s.currentFence + gs.length := by
  induction gs generalizing s with
  | nil => simp [runFrames]
  | cons g gs ih =>
      show (runFrames (frameStep s g) gs).currentFence = _
      rw [ih (frameStep s g), frameStep_currentFence, List.length_cons]
      omega

/-- C2: the per-frame acquire/submit fence protocol.
1. The acquire step never proceeds while the completed value is below the
   newly current slot's recorded fence.
2. The wait is skipped when the slot's recorded fence is the unset value `0`
   (the completed value is whatever the GPU reached on its own).
3. A blocking wait can only have happened when the recorded fence was set
   (nonzero): otherwise the completed value is untouched.
4. Completed values (completion markers) never decrease across a frame.
5. In a run from the initial state, the fence recorded at the (n+1)-st
   submission (`++mCurrentFence`) is exactly `n + 1`, so recorded fence
   values are strictly increasing over the run. -/
theorem c2_fence_acquire_protocol :
    (∀ (s : FenceState) (g : ℕ),
        s.slotFence (advanceIndex s.idx) ≤ (updateStep s g).gpuCompleted) ∧
    (∀ (s : FenceState) (g : ℕ), s.slotFence (advanceIndex s.idx) = 0 →
        (updateStep s g).gpuCompleted = s.gpuCompleted + g) ∧
    (∀ (s : FenceState) (g : ℕ),
        (updateStep s g).gpuCompleted ≠ s.gpuCompleted + g →
        s.slotFence (advanceIndex s.idx) ≠ 0) ∧
    (∀ (s : FenceState) (g : ℕ), s.gpuCompleted ≤ (frameStep s g).gpuCompleted) ∧
    (∀ (gs : List ℕ) (g : ℕ),
        (frameStep (runFrames initFenceState gs) g).slotFence
            ((frameStep (runFrames initFenceState gs) g).idx) = gs.length + 1) := by
  refine ⟨updateStep_ge_fence, updateStep_skip, ?_, ?_, ?_⟩
  · intro s g h h0
    exact h (updateStep_skip s g h0)
  · intro s g
    exact updateStep_monotone s g
  · intro gs g
    show (drawSubmit (updateStep (runFrames initFenceState gs) g)).slotFence
        (drawSubmit (updateStep (runFrames initFenceState gs) g)).idx = _
    unfold drawSubmit
    simp only [Function.update_same, updateStep_currentFence]
    rw [runFrames_currentFence]
    simp [initFenceState]

/-- Witness for C2 at a concrete state: the first frame from the initial
state (slot fence unset, GPU progress 5) skips the wait. -/
theorem c2_fence_acquire_protocol_witness :
    initFenceState.slotFence (advanceIndex initFenceState.idx) = 0 ∧
    (updateStep initFenceState 5).gpuCompleted = initFenceState.gpuCompleted + 5 :=
  ⟨rfl, c2_fence_acquire_protocol.2.1 initFenceState 5 rfl⟩

/-! ## Render items and the dirty-counter object-constant protocol

`RenderItem` (source lines 1254–1285) and `TexColumnsApp::UpdateObjectCBs`
(source lines 1598–1620). Matrices are `Matrix (Fin 4) (Fin 4) ℚ`;
`XMMatrixTranspose` is `Matrix.transpose`. -/

/-- A 4x4 matrix (`XMFLOAT4X4`). -/
abbrev M4 : Type := Matrix (Fin 4) (Fin 4) ℚ

/-- The per-object constant block uploaded by `UpdateObjectCBs`
(`ObjectConstants` with fields `World` and `TexTransform`, as constructed at
source lines 1609–1611; the struct itself lives in `FrameResource.h`,
modelled from its use in the source). -/
structure ObjectConstants where
  World : M4
  TexTransform : M4
  deriving DecidableEq

/-- Source `struct RenderItem` (lines 1254–1285): world and texture
transforms, the dirty counter, the constant-buffer index, and the fields the
renderer reads (material indices, geometry id, topology, and the
`DrawIndexedInstanced` sub-range parameters). -/
structure RenderItem where
  World : M4
  TexTransform : M4
  NumFramesDirty : ℤ
  ObjCBIndex : ℕ
  MatCBIndex : ℕ
  DiffuseSrvHeapIndex : ℕ
  GeoId : ℕ
  PrimitiveType : ℕ
  IndexCount : ℕ
  StartIndexLocation : ℕ
  BaseVertexLocation : ℤ

/-- The default member initializer `NumFramesDirty = gNumFrameResources`
(source line 1271): every render item is created with its dirty counter equal
to the ring size. -/
def renderItemInitialDirty : ℤ := gNumFrameResources

/-- The constants `UpdateObjectCBs` uploads for a dirty item: the transposed
world and texture transforms (`XMMatrixTranspose`, source lines 1609–1611). -/
def objConstantsOf (e : RenderItem) : ObjectConstants :=
  { World := Matrix.transpose e.World, TexTransform := Matrix.transpose e.TexTransform }

/-- One entry of a frame slot's object-constant write log:
`currObjectCB->CopyData(e->ObjCBIndex, objConstants)` (source line 1613). -/
def writeOf (e : RenderItem) : ℕ × ObjectConstants :=
  (e.ObjCBIndex, objConstantsOf e)

/-- The loop body of `UpdateObjectCBs` threaded over `mAllRitems`: for each
item with `NumFramesDirty > 0`, append the `CopyData` write to the current
slot's log and decrement the counter; otherwise leave the item alone. -/
def updateObjectCBsLoop :
    List RenderItem → List (ℕ × ObjectConstants) →
    List RenderItem × List (ℕ × ObjectConstants)
  | [], log => ([], log)
  | e :: rest, log =>
      if 0 < e.NumFramesDirty then
        let res := updateObjectCBsLoop rest (log ++ [writeOf e])
        ({ e with NumFramesDirty := e.NumFramesDirty - 1 } :: res.1, res.2)
      else
        let res := updateObjectCBsLoop rest log
        (e :: res.1, res.2)

/-- The object-constant-relevant state of the app: `mAllRitems`, the write
log of each frame slot's `ObjectCB`, and `mCurrFrameResourceIndex`. -/
structure ObjCBApp where
  allRitems : List RenderItem
  frames : ℕ → List (ℕ × ObjectConstants)
  currIdx : ℕ

/-- Source `TexColumnsApp::UpdateObjectCBs` (lines 1598–1620): run the dirty
loop against the current frame resource's object constant buffer. -/
def updateObjectCBs (app : ObjCBApp) : ObjCBApp :=
  { app with
    allRitems := (updateObjectCBsLoop app.allRitems (app.frames app.currIdx)).1
    frames := Function.update app.frames app.currIdx
      (updateObjectCBsLoop app.allRitems (app.frames app.currIdx)).2 }

/-- The decrement applied to one item by a pass of `UpdateObjectCBs`. -/
def stepItem (e : RenderItem) : RenderItem :=
  if 0 < e.NumFramesDirty then { e with NumFramesDirty := e.NumFramesDirty - 1 } else e

/-- One frame of `TexColumnsApp::Update` as far as object constants are
concerned: advance the ring index (source line 1449), then run
`UpdateObjectCBs` against the new current slot. -/
def frameObjUpdate (app : ObjCBApp) : ObjCBApp :=
  updateObjectCBs { app with currIdx := advanceIndex app.currIdx }

theorem updateObjectCBsLoop_spec (items : List RenderItem)
    (log : List (ℕ × ObjectConstants)) :
    updateObjectCBsLoop items log =
      (items.map stepItem,
       log ++ (items.filter fun e => 0 < e.NumFramesDirty).map writeOf) := by
  induction items generalizing log with
  | nil => simp [updateObjectCBsLoop]
  | cons e rest ih =>
      by_cases h : 0 < e.NumFramesDirty
      · simp [updateObjectCBsLoop, h, ih, stepItem, List.filter_cons]
      · simp [updateObjectCBsLoop, h, ih, stepItem, List.filter_cons]

theorem stepItem_writeOf (e : RenderItem) : writeOf (stepItem e) = writeOf e := by
  unfold stepItem writeOf objConstantsOf
  split <;> rfl

theorem stepItem_dirty (e : RenderItem) (k : ℤ) (hk : 0 < k)
    (h : e.NumFramesDirty = k) : (stepItem e).NumFramesDirty = k - 1 := by
  unfold stepItem
  rw [if_pos (h ▸ hk), h]

theorem filter_dirty_of_all (items : List RenderItem)
    (h : ∀ e ∈ items, 0 < e.NumFramesDirty) :
    (items.filter fun e => 0 < e.NumFramesDirty) = items := by
  induction items with
  | nil => rfl
  | cons e rest ih =>
      rw [List.filter_cons]
      rw [if_pos (by simpa using h e (List.mem_cons_self e rest))]
      rw [ih fun x hx => h x (List.mem_cons_of_mem e hx)]

theorem filter_dirty_of_none (items : List RenderItem)
    (h : ∀ e ∈ items, e.NumFramesDirty = 0) :
    (items.filter fun e => 0 < e.NumFramesDirty) = [] := by
  induction items with
  | nil => rfl
  | cons e rest ih =>
      rw [List.filter_cons]
      rw [if_neg (by simp [h e (List.mem_cons_self e rest)])]
      exact ih fun x hx => h x (List.mem_cons_of_mem e hx)

theorem map_stepItem_of_none (items : List RenderItem)
    (h : ∀ e ∈ items, e.NumFramesDirty = 0) :
    items.map stepItem = items := by
  induction items with
  | nil => rfl
  | cons e rest ih =>
      rw [List.map_cons]
      rw [show stepItem e = e by
        unfold stepItem
        rw [if_neg (by simp [h e (List.mem_cons_self e rest)])]]
      rw [ih fun x hx => h x (List.mem_cons_of_mem e hx)]

/-- A pass of `frameObjUpdate` over items all at the same positive dirty
count `k`: every counter drops to `k - 1`, the upload data of the items is
unchanged, exactly one write per item is appended to the new current slot's
log, and the ring index has advanced. -/
theorem frameObjUpdate_uniform (app : ObjCBApp) (k : ℤ) (hk : 0 < k)
    (h : ∀ e ∈ app.allRitems, e.NumFramesDirty = k) :
    (∀ e ∈ (frameObjUpdate app).allRitems, e.NumFramesDirty = k - 1) ∧
    (frameObjUpdate app).allRitems.map writeOf = app.allRitems.map writeOf ∧
    (frameObjUpdate app).frames = Function.update app.frames (advanceIndex app.currIdx)
        (app.frames (advanceIndex app.currIdx) ++ app.allRitems.map writeOf) ∧
    (frameObjUpdate app).currIdx = advanceIndex app.currIdx := by
  have hpos : ∀ e ∈ app.allRitems, 0 < e.NumFramesDirty := fun e he => (h e he) ▸ hk
  have hitems : (frameObjUpdate app).allRitems = app.allRitems.map stepItem := by
    simp [frameObjUpdate, updateObjectCBs, updateObjectCBsLoop_spec]
  refine ⟨?_, ?_, ?_, rfl⟩
  · intro e he
    rw [hitems] at he
    obtain ⟨x, hx, rfl⟩ := List.mem_map.mp he
    exact stepItem_dirty x k hk (h x hx)
  · rw [hitems, List.map_map]
    exact List.map_congr_left fun x _ => stepItem_writeOf x
  · show (updateObjectCBs { app with currIdx := advanceIndex app.currIdx }).frames = _
    unfold updateObjectCBs
    rw [updateObjectCBsLoop_spec]
    simp only
    rw [filter_dirty_of_all app.allRitems hpos]

/-- A pass of `frameObjUpdate` over items whose counters are all `0`:
no writes occur and the items are unchanged. -/
theorem frameObjUpdate_clean (app : ObjCBApp)
    (h : ∀ e ∈ app.allRitems, e.NumFramesDirty = 0) :
    (frameObjUpdate app).frames = app.frames ∧
    (frameObjUpdate app).allRitems = app.allRitems := by
  constructor
  · show (updateObjectCBs { app with currIdx := advanceIndex app.currIdx }).frames = _
    unfold updateObjectCBs
    rw [updateObjectCBsLoop_spec]
    simp only
    rw [filter_dirty_of_none app.allRitems h, List.map_nil, List.append_nil,
      Function.update_eq_self]
  · show (updateObjectCBs { app with currIdx := advanceIndex app.currIdx }).allRitems = _
    unfold updateObjectCBs
    rw [updateObjectCBsLoop_spec]
    simp only
    exact map_stepItem_of_none app.allRitems h

/-- C1: from any state whose render items all carry the creation-time dirty
count `NumFramesDirty = gNumFrameResources = 3` and whose slot logs are
empty:
1. any single `UpdateObjectCBs` pass writes, for exactly the items with a
   positive counter, the transposed world/texture transforms to the current
   slot's buffer at their `ObjCBIndex`, and decrements exactly those
   counters by 1;
2. after 3 consecutive frame updates every counter is 0;
3. each of the 3 ring slots has then received exactly one write per item
   (its transposed transforms at its `ObjCBIndex`);
4. a further frame update writes nothing (transforms unchanged). -/
theorem c1_dirty_counter_three_updates (app : ObjCBApp)
    (hidx : app.currIdx < 3)
    (hdirty : ∀ e ∈ app.allRitems, e.NumFramesDirty = renderItemInitialDirty)
    (hlog : ∀ i, app.frames i = []) :
    (∀ b : ObjCBApp,
        (updateObjectCBs b).allRitems = b.allRitems.map stepItem ∧
        (updateObjectCBs b).frames b.currIdx
          = b.frames b.currIdx
            ++ (b.allRitems.filter fun e => 0 < e.NumFramesDirty).map writeOf) ∧
    (∀ e ∈ (frameObjUpdate (frameObjUpdate (frameObjUpdate app))).allRitems,
        e.NumFramesDirty = 0) ∧
    (∀ i, i < 3 →
        (frameObjUpdate (frameObjUpdate (frameObjUpdate app))).frames i
          = app.allRitems.map writeOf) ∧
    (frameObjUpdate (frameObjUpdate (frameObjUpdate (frameObjUpdate app)))).frames
        = (frameObjUpdate (frameObjUpdate (frameObjUpdate app))).frames := by
  have h3 : ∀ e ∈ app.allRitems, e.NumFramesDirty = (3 : ℤ) := by
    intro e he
    rw [hdirty e he]
    norm_num [renderItemInitialDirty, gNumFrameResources]
  obtain ⟨d1, w1, f1, i1⟩ := frameObjUpdate_uniform app 3 (by norm_num) h3
  obtain ⟨d2, w2, f2, i2⟩ :=
    frameObjUpdate_uniform (frameObjUpdate app) (3 - 1) (by norm_num) d1
  obtain ⟨d3, w3, f3, i3⟩ :=
    frameObjUpdate_uniform (frameObjUpdate (frameObjUpdate app)) (3 - 1 - 1)
      (by norm_num) d2
  have d0 : ∀ e ∈ (frameObjUpdate (frameObjUpdate (frameObjUpdate app))).allRitems,
      e.NumFramesDirty = 0 := by
    intro e he
    have := d3 e he
    omega
  refine ⟨?_, d0, ?_, (frameObjUpdate_clean _ d0).1⟩
  · intro b
    constructor
    · simp [updateObjectCBs, updateObjectCBsLoop_spec]
    · show (Function.update b.frames b.currIdx
          (updateObjectCBsLoop b.allRitems (b.frames b.currIdx)).2) b.currIdx = _
      rw [Function.update_same, updateObjectCBsLoop_spec]
  · intro i hi
    have hc : app.currIdx = 0 ∨ app.currIdx = 1 ∨ app.currIdx = 2 := by omega
    have hiv : i = 0 ∨ i = 1 ∨ i = 2 := by omega
    rcases hc with hc | hc | hc <;> rcases hiv with rfl | rfl | rfl <;>
      simp only [f3, f2, f1, Function.update_apply, w2, w1, i2, i1, hc, hlog] <;>
      simp [advanceIndex, gNumFrameResources]

/-- A one-item example app at creation state, used to witness C1. -/
def c1ExampleApp : ObjCBApp :=
  { allRitems := [⟨1, 1, 3, 0, 0, 0, 0, 0, 36, 0, 0⟩]
    frames := fun _ => []
    currIdx := 0 }

/-- Witness for C1 on `c1ExampleApp`. -/
theorem c1_dirty_counter_three_updates_witness :
    (c1ExampleApp.currIdx < 3 ∧
     (∀ e ∈ c1ExampleApp.allRitems, e.NumFramesDirty = renderItemInitialDirty) ∧
     (∀ i, c1ExampleApp.frames i = [])) ∧
    ((∀ b : ObjCBApp,
        (updateObjectCBs b).allRitems = b.allRitems.map stepItem ∧
        (updateObjectCBs b).frames b.currIdx
          = b.frames b.currIdx
            ++ (b.allRitems.filter fun e => 0 < e.NumFramesDirty).map writeOf) ∧
     (∀ e ∈ (frameObjUpdate (frameObjUpdate (frameObjUpdate c1ExampleApp))).allRitems,
        e.NumFramesDirty = 0) ∧
     (∀ i, i < 3 →
        (frameObjUpdate (frameObjUpdate (frameObjUpdate c1ExampleApp))).frames i
          = c1ExampleApp.allRitems.map writeOf) ∧
     (frameObjUpdate (frameObjUpdate (frameObjUpdate
          (frameObjUpdate c1ExampleApp)))).frames
        = (frameObjUpdate (frameObjUpdate (frameObjUpdate c1ExampleApp))).frames) :=
  ⟨⟨by norm_num [c1ExampleApp],
    by
      intro e he
      rw [show c1ExampleApp.allRitems = [⟨1, 1, 3, 0, 0, 0, 0, 0, 36, 0, 0⟩] from rfl,
        List.mem_singleton] at he
      subst he
      norm_num [renderItemInitialDirty, gNumFrameResources],
    fun _ => rfl⟩,
   c1_dirty_counter_three_updates c1ExampleApp
     (by norm_num [c1ExampleApp])
     (by
       intro e he
       rw [show c1ExampleApp.allRitems = [⟨1, 1, 3, 0, 0, 0, 0, 0, 36, 0, 0⟩] from rfl,
         List.mem_singleton] at he
       subst he
       norm_num [renderItemInitialDirty, gNumFrameResources])
     (fun _ => rfl)⟩

/-! ## The renderer's command recording

`TexColumnsApp::Draw` (source lines 1468–1528) and
`TexColumnsApp::DrawRenderItems` (source lines 2604–2633), embedded as the
list of commands recorded into the command list. -/

/-- A recorded graphics command (the subset of the command-list calls the
claims concern; constant-buffer binds carry the element index whose byte
offset is `index * CalcConstantBufferByteSize(...)`). -/
inductive GCmd where
  | setViewport
  | setScissor
  | barrierPresentToRT
  | clearRTV
  | clearDSV
  | setRenderTargets
  | setDescriptorHeaps
  | setRootSignature
  | bindPassCB
  | bindVertexBuffer (geo : ℕ)
  | bindIndexBuffer (geo : ℕ)
  | setTopology (t : ℕ)
  | bindTexture (heapIndex : ℕ)
  | bindObjCB (index : ℕ)
  | bindMatCB (index : ℕ)
  | drawIndexed (indexCount instanceCount startIndex : ℕ)
      (baseVertex : ℤ) (startInstance : ℕ)
  | barrierRTToPresent
  deriving DecidableEq, Repr

/-- The loop body of `DrawRenderItems` for one render item (source lines
2615–2632): vertex buffer, index buffer, topology, texture descriptor
(offset `DiffuseSrvHeapIndex`), object CB at element `ObjCBIndex`, material
CB at element `MatCBIndex`, then
`DrawIndexedInstanced(IndexCount, 1, StartIndexLocation, BaseVertexLocation, 0)`. -/
def itemCmds (ri : RenderItem) : List GCmd :=
  [ .bindVertexBuffer ri.GeoId
  , .bindIndexBuffer ri.GeoId
  , .setTopology ri.PrimitiveType
  , .bindTexture ri.DiffuseSrvHeapIndex
  , .bindObjCB ri.ObjCBIndex
  , .bindMatCB ri.MatCBIndex
  , .drawIndexed ri.IndexCount 1 ri.StartIndexLocation ri.BaseVertexLocation 0 ]

/-- Source `TexColumnsApp::DrawRenderItems`: the `for each render item` loop. -/
def drawRenderItems : List RenderItem → List GCmd
  | [] => []
  | ri :: rest => itemCmds ri ++ drawRenderItems rest

/-- Source `TexColumnsApp::Draw`: the full per-frame command recording — viewport,
scissor, barrier, clears, render targets, descriptor heaps, root signature,
the single per-pass constant-buffer bind (source line 1501), the render-item
loop over `mOpaqueRitems`, and the closing barrier. -/
def drawFrame (ritems : List RenderItem) : List GCmd :=
  [ .setViewport, .setScissor, .barrierPresentToRT, .clearRTV, .clearDSV
  , .setRenderTargets, .setDescriptorHeaps, .setRootSignature, .bindPassCB ]
  ++ drawRenderItems ritems ++ [.barrierRTToPresent]

def GCmd.isPassBind : GCmd → Bool
  | .bindPassCB => true
  | _ => false

def GCmd.isDraw : GCmd → Bool
  | .drawIndexed _ _ _ _ _ => true
  | _ => false

def GCmd.isObjBind : GCmd → Bool
  | .bindObjCB _ => true
  | _ => false

def GCmd.isMatBind : GCmd → Bool
  | .bindMatCB _ => true
  | _ => false

def GCmd.isTexBind : GCmd → Bool
  | .bindTexture _ => true
  | _ => false

def GCmd.isVBBind : GCmd → Bool
  | .bindVertexBuffer _ => true
  | _ => false

def GCmd.isIBBind : GCmd → Bool
  | .bindIndexBuffer _ => true
  | _ => false

theorem drawRenderItems_filter (p : GCmd → Bool) (f : RenderItem → GCmd)
    (h : ∀ ri, (itemCmds ri).filter p = [f ri]) (l : List RenderItem) :
    (drawRenderItems l).filter p = l.map f := by
  induction l with
  | nil => rfl
  | cons ri rest ih =>
      show ((itemCmds ri ++ drawRenderItems rest).filter p) = _
      rw [List.filter_append, h, ih, List.map_cons]
      rfl

theorem drawRenderItems_filter_nil (p : GCmd → Bool)
    (h : ∀ ri, (itemCmds ri).filter p = []) (l : List RenderItem) :
    (drawRenderItems l).filter p = [] := by
  induction l with
  | nil => rfl
  | cons ri rest ih =>
      show ((itemCmds ri ++ drawRenderItems rest).filter p) = _
      rw [List.filter_append, h, ih, List.nil_append]

theorem drawFrame_filter_of_itemwise (p : GCmd → Bool) (f : RenderItem → GCmd)
    (h : ∀ ri, (itemCmds ri).filter p = [f ri])
    (hpass : p .bindPassCB = false)
    (hother : p .setViewport = false ∧ p .setScissor = false ∧
      p .barrierPresentToRT = false ∧ p .clearRTV = false ∧ p .clearDSV = false ∧
      p .setRenderTargets = false ∧ p .setDescriptorHeaps = false ∧
      p .setRootSignature = false ∧ p .barrierRTToPresent = false)
    (l : List RenderItem) :
    (drawFrame l).filter p = l.map f := by
  obtain ⟨h1, h2, h3, h4, h5, h6, h7, h8, h9⟩ := hother
  show (_ ++ drawRenderItems l ++ _).filter p = _
  rw [List.filter_append, List.filter_append, drawRenderItems_filter p f h]
  simp [List.filter, h1, h2, h3, h4, h5, h6, h7, h8, h9, hpass]

/-- C7: per frame, the recorded command list binds the per-pass constant
buffer exactly once; and, over the whole frame, the object-CB binds, the
material-CB binds, the texture binds, the vertex/index-buffer binds, and the
indexed draws are each exactly one per render item, in list order, with the
item's own `ObjCBIndex`, `MatCBIndex`, `DiffuseSrvHeapIndex`, geometry, and
`DrawIndexedInstanced(IndexCount, 1, StartIndexLocation, BaseVertexLocation,
0)` — one draw per item with instance count 1, independent of any
visibility (no culling, batching, or instancing). -/
theorem c7_draw_one_item_one_draw (ritems : List RenderItem) :
    ((drawFrame ritems).filter GCmd.isPassBind = [.bindPassCB]) ∧
    ((drawFrame ritems).filter GCmd.isDraw
      = ritems.map fun ri =>
          .drawIndexed ri.IndexCount 1 ri.StartIndexLocation ri.BaseVertexLocation 0) ∧
    ((drawFrame ritems).filter GCmd.isObjBind
      = ritems.map fun ri => .bindObjCB ri.ObjCBIndex) ∧
    ((drawFrame ritems).filter GCmd.isMatBind
      = ritems.map fun ri => .bindMatCB ri.MatCBIndex) ∧
    ((drawFrame ritems).filter GCmd.isTexBind
      = ritems.map fun ri => .bindTexture ri.DiffuseSrvHeapIndex) ∧
    ((drawFrame ritems).filter GCmd.isVBBind
      = ritems.map fun ri => .bindVertexBuffer ri.GeoId) ∧
    ((drawFrame ritems).filter GCmd.isIBBind
      = ritems.map fun ri => .bindIndexBuffer ri.GeoId) := by
  refine ⟨?_, ?_, ?_, ?_, ?_, ?_, ?_⟩
  · show (_ ++ drawRenderItems ritems ++ _).filter GCmd.isPassBind = _
    rw [List.filter_append, List.filter_append,
      drawRenderItems_filter_nil GCmd.isPassBind (fun _ => rfl) ritems]
    rfl
  · exact drawFrame_filter_of_itemwise GCmd.isDraw
      (fun ri => .drawIndexed ri.IndexCount 1 ri.StartIndexLocation ri.BaseVertexLocation 0)
      (fun _ => rfl) rfl ⟨rfl, rfl, rfl, rfl, rfl, rfl, rfl, rfl, rfl⟩ ritems
  · exact drawFrame_filter_of_itemwise GCmd.isObjBind
      (fun ri => .bindObjCB ri.ObjCBIndex)
      (fun _ => rfl) rfl ⟨rfl, rfl, rfl, rfl, rfl, rfl, rfl, rfl, rfl⟩ ritems
  · exact drawFrame_filter_of_itemwise GCmd.isMatBind
      (fun ri => .bindMatCB ri.MatCBIndex)
      (fun _ => rfl) rfl ⟨rfl, rfl, rfl, rfl, rfl, rfl, rfl, rfl, rfl⟩ ritems
  · exact drawFrame_filter_of_itemwise GCmd.isTexBind
      (fun ri => .bindTexture ri.DiffuseSrvHeapIndex)
      (fun _ => rfl) rfl ⟨rfl, rfl, rfl, rfl, rfl, rfl, rfl, rfl, rfl⟩ ritems
  · exact drawFrame_filter_of_itemwise GCmd.isVBBind
      (fun ri => .bindVertexBuffer ri.GeoId)
      (fun _ => rfl) rfl ⟨rfl, rfl, rfl, rfl, rfl, rfl, rfl, rfl, rfl⟩ ritems
  · exact drawFrame_filter_of_itemwise GCmd.isIBBind
      (fun ri => .bindIndexBuffer ri.GeoId)
      (fun _ => rfl) rfl ⟨rfl, rfl, rfl, rfl, rfl, rfl, rfl, rfl, rfl⟩ ritems

/-! ## The wireframe toggle that the header documents

File header (source lines 6–9) documents: Hold down the 1 key to view the
scene in wireframe mode. -/

/-- Source `TexColumnsApp::OnKeyboardInput` (lines 1573–1575): the body is
empty — no keyboard state is read and nothing changes. -/
def onKeyboardInput (s : CameraState) : CameraState := s

/-- The pipeline states built by `BuildPSOs` (source lines 1948–1986): only
the key `"opaque"` is ever inserted into `mPSOs`. -/
def builtPSOs : List String := ["opaque"]

/-- The pipeline state `Draw` resets the command list with (source line
1478): unconditionally `mPSOs["opaque"]`. -/
def drawResetPSOName : String := "opaque"

/-- C6 (code bug): keyboard input has no effect on any state, the only
pipeline state ever built is the opaque one, and every frame is recorded
with it — there is no wireframe pipeline and no key-'1' toggle, contrary to
the file's own header comment. -/
theorem c6_wireframe_toggle_noop (s : CameraState) :
    onKeyboardInput s = s ∧
    drawResetPSOName = "opaque" ∧
    builtPSOs = ["opaque"] ∧
    "opaque_wireframe" ∉ builtPSOs := by
  refine ⟨rfl, rfl, rfl, ?_⟩
  intro h
  rw [builtPSOs, List.mem_singleton] at h
  exact absurd h (by decide)

/-! ## The geometry builder

`TexColumnsApp::BuildShapeGeometry` (source lines 1823–1948). The four
`GeometryGenerator` meshes are parameters (the generator itself is framework
code); the builder's offset computation and concatenation are embedded
verbatim. -/

/-- A `GeometryGenerator::Vertex` (the fields the builder reads, plus the
tangent it drops). -/
structure GVertex where
  Position : ℚ × ℚ × ℚ
  Normal : ℚ × ℚ × ℚ
  TexC : ℚ × ℚ
  TangentU : ℚ × ℚ × ℚ
  deriving DecidableEq

/-- A `GeometryGenerator::MeshData`: vertex list and 32-bit index list. -/
structure MeshData where
  Vertices : List GVertex
  Indices32 : List ℕ
  deriving DecidableEq

/-- The app's `Vertex` (Pos, Normal, TexC — see the input layout and the
copy loops at source lines 1884–1912). -/
structure Vertex where
  Pos : ℚ × ℚ × ℚ
  Normal : ℚ × ℚ × ℚ
  TexC : ℚ × ℚ
  deriving DecidableEq

/-- The per-element copy of the builder's packing loops:
`vertices[k].Pos = m.Vertices[i].Position` etc. (the tangent is dropped). -/
def toVertex (v : GVertex) : Vertex := ⟨v.Position, v.Normal, v.TexC⟩

/-- Modelled from the spec: `MeshData::GetIndices16()` converts each 32-bit
index to 16 bits (`DXGI_FORMAT_R16_UINT` index buffer), embedded as
reduction mod 2^16. -/
def getIndices16 (m : MeshData) : List ℕ := m.Indices32.map (· % 65536)

/-- A `SubmeshGeometry`: `{ IndexCount, StartIndexLocation,
BaseVertexLocation }`. -/
structure SubmeshGeometry where
  IndexCount : ℕ
  StartIndexLocation : ℕ
  BaseVertexLocation : ℕ
  deriving DecidableEq

/-- The result of `BuildShapeGeometry`: the concatenated vertex and index
buffers and the four named sub-ranges (`DrawArgs`). -/
structure BuiltGeometry where
  vertices : List Vertex
  indices : List ℕ
  boxSubmesh : SubmeshGeometry
  gridSubmesh : SubmeshGeometry
  sphereSubmesh : SubmeshGeometry
  cylinderSubmesh : SubmeshGeometry

/-- Source `TexColumnsApp::BuildShapeGeometry` (lines 1823–1948): offsets
are running sums of the preceding shapes' vertex/index counts in the fixed
order box, grid, sphere, cylinder; the vertex buffer is the concatenation of
the packed vertices in that order; the index buffer is the concatenation of
the 16-bit index lists in that order. -/
def buildShapeGeometry (box grid sphere cylinder : MeshData) : BuiltGeometry :=
  { vertices := box.Vertices.map toVertex ++ (grid.Vertices.map toVertex ++
      (sphere.Vertices.map toVertex ++ cylinder.Vertices.map toVertex))
    indices := getIndices16 box ++ (getIndices16 grid ++
      (getIndices16 sphere ++ getIndices16 cylinder))
    boxSubmesh :=
      { IndexCount := box.Indices32.length
        StartIndexLocation := 0
        BaseVertexLocation := 0 }
    gridSubmesh :=
      { IndexCount := grid.Indices32.length
        StartIndexLocation := box.Indices32.length
        BaseVertexLocation := box.Vertices.length }
    sphereSubmesh :=
      { IndexCount := sphere.Indices32.length
        StartIndexLocation := box.Indices32.length + grid.Indices32.length
        BaseVertexLocation := box.Vertices.length + grid.Vertices.length }
    cylinderSubmesh :=
      { IndexCount := cylinder.Indices32.length
        StartIndexLocation := box.Indices32.length + grid.Indices32.length
            + sphere.Indices32.length
        BaseVertexLocation := box.Vertices.length + grid.Vertices.length
            + sphere.Vertices.length } }

theorem seg_first {α : Type} (A R : List α) (n : ℕ) (h : n = A.length) :
    ((A ++ R).drop 0).take n = A := by
  subst h
  rw [List.drop_zero, List.take_left]

theorem seg_second {α : Type} (A B R : List α) (n k : ℕ)
    (hn : n = A.length) (hk : k = B.length) :
    ((A ++ (B ++ R)).drop n).take k = B := by
  subst hn hk
  rw [List.drop_left, List.take_left]

theorem seg_third {α : Type} (A B C R : List α) (n k : ℕ)
    (hn : n = A.length + B.length) (hk : k = C.length) :
    ((A ++ (B ++ (C ++ R))).drop n).take k = C := by
  subst hn hk
  rw [List.drop_append, List.drop_left, List.take_left]

theorem seg_fourth {α : Type} (A B C D : List α) (n k : ℕ)
    (hn : n = A.length + B.length + C.length) (hk : k = D.length) :
    ((A ++ (B ++ (C ++ D))).drop n).take k = D := by
  subst hn hk
  rw [show A.length + B.length + C.length
      = A.length + (B.length + C.length) by omega]
  rw [List.drop_append, List.drop_append, List.drop_left, List.take_length]

/-- C9: the geometry builder concatenates box, grid, sphere, cylinder in
that fixed order into one vertex and one index buffer; each sub-range's
`BaseVertexLocation` is the sum of the preceding shapes' vertex counts, its
`StartIndexLocation` the sum of the preceding shapes' index counts, and its
`IndexCount` the shape's own index count; indexing any sub-range through
those fields recovers exactly that shape's data; and consecutive sub-ranges
are adjacent (hence pairwise disjoint) and tile the whole index buffer. -/
theorem c9_geometry_concatenation (box grid sphere cylinder : MeshData) :
    ((buildShapeGeometry box grid sphere cylinder).boxSubmesh.BaseVertexLocation = 0 ∧
     (buildShapeGeometry box grid sphere cylinder).gridSubmesh.BaseVertexLocation
        = box.Vertices.length ∧
     (buildShapeGeometry box grid sphere cylinder).sphereSubmesh.BaseVertexLocation
        = box.Vertices.length + grid.Vertices.length ∧
     (buildShapeGeometry box grid sphere cylinder).cylinderSubmesh.BaseVertexLocation
        = box.Vertices.length + grid.Vertices.length + sphere.Vertices.length) ∧
    ((buildShapeGeometry box grid sphere cylinder).boxSubmesh.StartIndexLocation = 0 ∧
     (buildShapeGeometry box grid sphere cylinder).gridSubmesh.StartIndexLocation
        = box.Indices32.length ∧
     (buildShapeGeometry box grid sphere cylinder).sphereSubmesh.StartIndexLocation
        = box.Indices32.length + grid.Indices32.length ∧
     (buildShapeGeometry box grid sphere cylinder).cylinderSubmesh.StartIndexLocation
        = box.Indices32.length + grid.Indices32.length + sphere.Indices32.length) ∧
    ((buildShapeGeometry box grid sphere cylinder).boxSubmesh.IndexCount
        = box.Indices32.length ∧
     (buildShapeGeometry box grid sphere cylinder).gridSubmesh.IndexCount
        = grid.Indices32.length ∧
     (buildShapeGeometry box grid sphere cylinder).sphereSubmesh.IndexCount
        = sphere.Indices32.length ∧
     (buildShapeGeometry box grid sphere cylinder).cylinderSubmesh.IndexCount
        = cylinder.Indices32.length) ∧
    (((buildShapeGeometry box grid sphere cylinder).indices.drop
          (buildShapeGeometry box grid sphere cylinder).boxSubmesh.StartIndexLocation).take
          (buildShapeGeometry box grid sphere cylinder).boxSubmesh.IndexCount
        = getIndices16 box ∧
     ((buildShapeGeometry box grid sphere cylinder).indices.drop
          (buildShapeGeometry box grid sphere cylinder).gridSubmesh.StartIndexLocation).take
          (buildShapeGeometry box grid sphere cylinder).gridSubmesh.IndexCount
        = getIndices16 grid ∧
     ((buildShapeGeometry box grid sphere cylinder).indices.drop
          (buildShapeGeometry box grid sphere cylinder).sphereSubmesh.StartIndexLocation).take
          (buildShapeGeometry box grid sphere cylinder).sphereSubmesh.IndexCount
        = getIndices16 sphere ∧
     ((buildShapeGeometry box grid sphere cylinder).indices.drop
          (buildShapeGeometry box grid sphere cylinder).cylinderSubmesh.StartIndexLocation).take
          (buildShapeGeometry box grid sphere cylinder).cylinderSubmesh.IndexCount
        = getIndices16 cylinder) ∧
    (((buildShapeGeometry box grid sphere cylinder).vertices.drop
          (buildShapeGeometry box grid sphere cylinder).boxSubmesh.BaseVertexLocation).take
          box.Vertices.length
        = box.Vertices.map toVertex ∧
     ((buildShapeGeometry box grid sphere cylinder).vertices.drop
          (buildShapeGeometry box grid sphere cylinder).gridSubmesh.BaseVertexLocation).take
          grid.Vertices.length
        = grid.Vertices.map toVertex ∧
     ((buildShapeGeometry box grid sphere cylinder).vertices.drop
          (buildShapeGeometry box grid sphere cylinder).sphereSubmesh.BaseVertexLocation).take
          sphere.Vertices.length
        = sphere.Vertices.map toVertex ∧
     ((buildShapeGeometry box grid sphere cylinder).vertices.drop
          (buildShapeGeometry box grid sphere cylinder).cylinderSubmesh.BaseVertexLocation).take
          cylinder.Vertices.length
        = cylinder.Vertices.map toVertex) ∧
    ((buildShapeGeometry box grid sphere cylinder).gridSubmesh.StartIndexLocation
        = (buildShapeGeometry box grid sphere cylinder).boxSubmesh.StartIndexLocation
          + (buildShapeGeometry box grid sphere cylinder).boxSubmesh.IndexCount ∧
     (buildShapeGeometry box grid sphere cylinder).sphereSubmesh.StartIndexLocation
        = (buildShapeGeometry box grid sphere cylinder).gridSubmesh.StartIndexLocation
          + (buildShapeGeometry box grid sphere cylinder).gridSubmesh.IndexCount ∧
     (buildShapeGeometry box grid sphere cylinder).cylinderSubmesh.StartIndexLocation
        = (buildShapeGeometry box grid sphere cylinder).sphereSubmesh.StartIndexLocation
          + (buildShapeGeometry box grid sphere cylinder).sphereSubmesh.IndexCount ∧
     (buildShapeGeometry box grid sphere cylinder).indices.length
        = (buildShapeGeometry box grid sphere cylinder).cylinderSubmesh.StartIndexLocation
          + (buildShapeGeometry box grid sphere cylinder).cylinderSubmesh.IndexCount) := by
  unfold buildShapeGeometry
  refine ⟨⟨rfl, rfl, rfl, rfl⟩, ⟨rfl, rfl, rfl, rfl⟩, ⟨rfl, rfl, rfl, rfl⟩,
    ⟨?_, ?_, ?_, ?_⟩, ⟨?_, ?_, ?_, ?_⟩, ⟨(Nat.zero_add _).symm, rfl, rfl, ?_⟩⟩
  · exact seg_first _ _ _ (by simp [getIndices16])
  · exact seg_second _ _ _ _ _ (by simp [getIndices16]) (by simp [getIndices16])
  · exact seg_third _ _ _ _ _ _ (by simp [getIndices16]) (by simp [getIndices16])
  · exact seg_fourth _ _ _ _ _ _ (by simp [getIndices16]) (by simp [getIndices16])
  · exact seg_first _ _ _ (by simp)
  · exact seg_second _ _ _ _ _ (by simp) (by simp)
  · exact seg_third _ _ _ _ _ _ (by simp) (by simp)
  · exact seg_fourth _ _ _ _ _ _ (by simp) (by simp)
  · show (getIndices16 box ++ (getIndices16 grid ++
        (getIndices16 sphere ++ getIndices16 cylinder))).length = _
    simp [getIndices16]
    omega

/-! ## Error handling

`ThrowIfFailed` wraps most backend calls; `WinMain` (source lines 1374–1387)
catches `DxException` at top level, shows a message box, and returns 0. -/

/-- A fallible backend call site, with whether its result is checked
(wrapped in `ThrowIfFailed` or otherwise examined). -/
structure BackendCall where
  name : String
  checked : Bool
  deriving DecidableEq

/-- The fallible backend calls issued by `TexColumnsApp::Draw` (source lines
1474–1527), in program order. `ExecuteCommandLists` returns `void` and is
not listed. The final `mCommandQueue->Signal` (line 1527) returns an
`HRESULT` that is discarded. -/
def drawFallibleCalls : List BackendCall :=
  [ ⟨"cmdListAlloc->Reset", true⟩
  , ⟨"mCommandList->Reset", true⟩
  , ⟨"mCommandList->Close", true⟩
  , ⟨"mSwapChain->Present", true⟩
  , ⟨"mCommandQueue->Signal", false⟩ ]

/-- The fallible calls in the fence wait of `TexColumnsApp::Update` (source
lines 1454–1459): `CreateEventEx` may return a null handle, which is never
checked; `SetEventOnCompletion` is wrapped in `ThrowIfFailed`. -/
def updateFallibleCalls : List BackendCall :=
  [ ⟨"CreateEventEx", false⟩
  , ⟨"mFence->SetEventOnCompletion", true⟩ ]

/-- Modelled from the spec: the framework's `ThrowIfFailed(hr)` raises a
`DxException` exactly when the `HRESULT` is failing (negative). -/
def throwIfFailed (hr : ℤ) : Except ℤ Unit :=
  if hr < 0 then .error hr else .ok ()

/-- The outcome of `WinMain`: the process return code and whether the
`MessageBox` diagnostic was shown. -/
structure WinMainResult where
  returnCode : ℤ
  diagnosticShown : Bool
  deriving DecidableEq

/-- Source `WinMain` (lines 1374–1387): run the app inside a single
`try`/`catch (DxException)`; on an exception, show the message box and
return 0 — one attempt, no retry. -/
def winMain (run : Except ℤ ℤ) : WinMainResult :=
  match run with
  | .ok code => ⟨code, false⟩
  | .error _ => ⟨0, true⟩

/-- C8 (counterexample): not every fallible backend call's result is
checked — the frame-end `mCommandQueue->Signal` call discards its
`HRESULT`, so a failure of it is silently ignored. -/
theorem c8_unchecked_signal_counterexample :
    (⟨"mCommandQueue->Signal", false⟩ : BackendCall) ∈ drawFallibleCalls ∧
    ¬ (∀ c ∈ drawFallibleCalls, c.checked = true) := by
  constructor
  · simp [drawFallibleCalls]
  · intro h
    have := h ⟨"mCommandQueue->Signal", false⟩ (by simp [drawFallibleCalls])
    simp at this

/-- C8 (amended): every fallible backend call in the frame loop other than
`mCommandQueue->Signal` (and the unchecked `CreateEventEx` handle creation)
is wrapped in `ThrowIfFailed`; `ThrowIfFailed` raises exactly on failing
results; and the single top-level handler surfaces the diagnostic and
terminates with exit code 0 — no retry and no recovery. -/
theorem c8_fatal_error_handling :
    (∀ c ∈ drawFallibleCalls, c.name ≠ "mCommandQueue->Signal" → c.checked = true) ∧
    (∀ c ∈ updateFallibleCalls, c.name ≠ "CreateEventEx" → c.checked = true) ∧
    (∀ hr : ℤ, hr < 0 → throwIfFailed hr = .error hr) ∧
    (∀ hr : ℤ, 0 ≤ hr → throwIfFailed hr = .ok ()) ∧
    (∀ e : ℤ, winMain (.error e) = ⟨0, true⟩) ∧
    (∀ code : ℤ, winMain (.ok code) = ⟨code, false⟩) := by
  refine ⟨?_, ?_, ?_, ?_, fun _ => rfl, fun _ => rfl⟩
  · intro c hc hn
    simp only [drawFallibleCalls, List.mem_cons, List.not_mem_nil, or_false] at hc
    rcases hc with rfl | rfl | rfl | rfl | rfl <;> first | rfl | exact absurd rfl hn
  · intro c hc hn
    simp only [updateFallibleCalls, List.mem_cons, List.not_mem_nil, or_false] at hc
    rcases hc with rfl | rfl <;> first | rfl | exact absurd rfl hn
  · intro hr h
    simp [throwIfFailed, h]
  · intro hr h
    simp [throwIfFailed, not_lt.mpr h]

/-- Witness for C8 (amended) at a failing `HRESULT` of `-1` and at the
`Present` call. -/
theorem c8_fatal_error_handling_witness :
    ((-1 : ℤ) < 0 ∧ throwIfFailed (-1) = .error (-1)) ∧
    ((⟨"mSwapChain->Present", true⟩ : BackendCall) ∈ drawFallibleCalls ∧
     (⟨"mSwapChain->Present", true⟩ : BackendCall).checked = true) :=
  ⟨⟨by norm_num, c8_fatal_error_handling.2.2.1 (-1) (by norm_num)⟩,
   ⟨by simp [drawFallibleCalls],
    c8_fatal_error_handling.1 ⟨"mSwapChain->Present", true⟩
      (by simp [drawFallibleCalls]) (by simp)⟩⟩

end TexColumns

